import Mathlib

/-
Verification of the AERAS (Accessible E-Rickshaw Automation System) dispatch
and reward engine against its natural-language specification.

The embedding below is translated from the repository source:
- the backend Node.js server (three successive revisions, referred to here as
  ServerV1 / ServerV2 / ServerV3 in the order they appear in the repository);
- the puller-facing React app (PullerApp.jsx), namespace PullerApp;
- the rickshaw ESP32 firmware (two revisions of the same sketch), namespace
  Rickshaw, with the websocket text handler embedded separately for each
  revision (webSocketTextEventV0 / webSocketTextEventV1);
- the user-block ESP32 firmware (user_side.ino), namespace UserSide.

Real arithmetic done by the clients and the server on IEEE doubles is
embedded over the rationals (exact arithmetic); trigonometric distance
formulas are embedded over an arbitrary field equipped with uninterpreted
sin / cos / sqrt / atan2 / pi operations, so theorems about them hold for
every possible valuation of those operations.
-/

namespace AERAS

/-- Ride lifecycle states as enumerated in the backend Mongoose ride schema.
This is the union over the server revisions: ServerV2 includes PICKED_UP,
ServerV3 omits it. No revision has an EXPIRED state. -/
inductive RideStatus where
  | pendingAssignment
  | assigned
  | accepted
  | rejected
  | cancelled
  | pickedUp
  | completed
deriving DecidableEq

/-- Projection of the backend ride document onto the fields the verified
handlers read or write: rideId, blockId, pullerId (absent until assignment),
status, createdAt (milliseconds, from the mongoose timestamps), and
rewardPoints (absent until completion). -/
structure RideDoc where
  rideId : String
  blockId : String
  pullerId : Option String
  status : RideStatus
  createdAt : Int
  rewardPoints : Option ℚ
deriving DecidableEq

/-- Uninterpreted trigonometric operations over a field, standing for the
float math library used by each implementation (Math.sin and friends in JS,
libm in the firmware). Keeping them abstract makes every equality below a
statement about the shared algebraic structure of the formulas, independent
of any particular float semantics. -/
structure TrigOps (α : Type) where
  sin : α → α
  cos : α → α
  sqrt : α → α
  atan2 : α → α → α
  pi : α

namespace Rickshaw

/-- computeDistanceMeters from the rickshaw firmware (identical in both
firmware revisions): Haversine with radians(x) = x * pi / 180 and radius
6371000 m. -/
def computeDistanceMeters {α : Type} [Field α] (t : TrigOps α)
    (lat1 lon1 lat2 lon2 : α) : α :=
  let radLat1 := lat1 * t.pi / 180
  let radLat2 := lat2 * t.pi / 180
  let deltaLat := (lat2 - lat1) * t.pi / 180
  let deltaLon := (lon2 - lon1) * t.pi / 180
  let a := t.sin (deltaLat / 2) * t.sin (deltaLat / 2) +
    t.cos radLat1 * t.cos radLat2 * t.sin (deltaLon / 2) * t.sin (deltaLon / 2)
  let c := 2 * t.atan2 (t.sqrt a) (t.sqrt (1 - a))
  6371000 * c

end Rickshaw

namespace PullerApp

/-- calculateDistance from PullerApp.jsx (inside updateLocationAndDistances):
R = 6371e3, phi in radians, Haversine. -/
def calculateDistance {α : Type} [Field α] (t : TrigOps α)
    (lat1 lon1 lat2 lon2 : α) : α :=
  let r : α := 6371000
  let phi1 := lat1 * t.pi / 180
  let phi2 := lat2 * t.pi / 180
  let dphi := (lat2 - lat1) * t.pi / 180
  let dlam := (lon2 - lon1) * t.pi / 180
  let a := t.sin (dphi / 2) * t.sin (dphi / 2) +
    t.cos phi1 * t.cos phi2 * t.sin (dlam / 2) * t.sin (dlam / 2)
  let c := 2 * t.atan2 (t.sqrt a) (t.sqrt (1 - a))
  r * c

end PullerApp

namespace UserSide

/-- calculateDistance from user_side.ino (TEST CASE 7 helper): R = 6371000,
arguments converted to radians inline. -/
def calculateDistance {α : Type} [Field α] (t : TrigOps α)
    (lat1 lon1 lat2 lon2 : α) : α :=
  let r : α := 6371000
  let dLat := (lat2 - lat1) * t.pi / 180
  let dLon := (lon2 - lon1) * t.pi / 180
  let a := t.sin (dLat / 2) * t.sin (dLat / 2) +
    t.cos (lat1 * t.pi / 180) * t.cos (lat2 * t.pi / 180) *
      t.sin (dLon / 2) * t.sin (dLon / 2)
  let c := 2 * t.atan2 (t.sqrt a) (t.sqrt (1 - a))
  r * c

end UserSide

namespace ServerV3

/-- calculateDistance from the latest backend revision (TEST CASE 7 comment):
R = 6371000, same Haversine shape as the user-side firmware. -/
def calculateDistance {α : Type} [Field α] (t : TrigOps α)
    (lat1 lon1 lat2 lon2 : α) : α :=
  let r : α := 6371000
  let dLat := (lat2 - lat1) * t.pi / 180
  let dLon := (lon2 - lon1) * t.pi / 180
  let a := t.sin (dLat / 2) * t.sin (dLat / 2) +
    t.cos (lat1 * t.pi / 180) * t.cos (lat2 * t.pi / 180) *
      t.sin (dLon / 2) * t.sin (dLon / 2)
  let c := 2 * t.atan2 (t.sqrt a) (t.sqrt (1 - a))
  r * c

end ServerV3

/-- The great-circle distance exactly as the specification words it:
d = 2 * R * atan2(sqrt a, sqrt (1 - a)) with
a = sin^2(dphi/2) + cos phi1 * cos phi2 * sin^2(dlam/2), R = 6371000 m,
latitudes and longitudes converted to radians. Written from the
specification text for comparison with the implementations above. -/
def haversineSpecDistance {α : Type} [Field α] (t : TrigOps α)
    (lat1 lon1 lat2 lon2 : α) : α :=
  let phi1 := lat1 * t.pi / 180
  let phi2 := lat2 * t.pi / 180
  let dphi := lat2 * t.pi / 180 - lat1 * t.pi / 180
  let dlam := lon2 * t.pi / 180 - lon1 * t.pi / 180
  let a := t.sin (dphi / 2) * t.sin (dphi / 2) +
    t.cos phi1 * t.cos phi2 * t.sin (dlam / 2) * t.sin (dlam / 2)
  2 * 6371000 * t.atan2 (t.sqrt a) (t.sqrt (1 - a))

namespace ServerV3

/-- calculatePoints from the latest backend revision (TEST CASE 7 formula):
Math.max(0, 10 - Math.floor(distanceFromBlock / 10)). -/
def calculatePoints (distanceFromBlock : ℚ) : ℤ :=
  max 0 (10 - ⌊distanceFromBlock / 10⌋)

/-- The reward branch of POST /completeRide in the latest backend revision:
points start at 0 and verificationStatus at REWARDED; distance at most 50 or
in (50, 100] assigns calculatePoints keeping REWARDED; above 100 keeps 0
points and sets PENDING_ADMIN_REVIEW. Returns (points, verificationStatus). -/
def completeRideOutcome (distanceFromBlock : ℚ) : ℤ × String :=
  if distanceFromBlock ≤ 50 then
    (calculatePoints distanceFromBlock, "REWARDED")
  else if distanceFromBlock ≤ 100 then
    (calculatePoints distanceFromBlock, "REWARDED")
  else
    (0, "PENDING_ADMIN_REVIEW")

/-- One PointsHistory document, projected onto the fields the verified
handlers use (the pullerId and rideId keys are dropped because the model
tracks a single puller ledger). Times are in days, mirroring the setDate
arithmetic of the source. -/
structure PointsEntry where
  delta : Int
  expiresAt : Option Int
  reason : String
deriving DecidableEq

/-- A single puller account: the denormalised totalPoints counter, the
append-only PointsHistory list, and the current day. -/
structure LedgerState where
  totalPoints : Int
  history : List PointsEntry
  nowDay : Int
deriving DecidableEq

/-- The points-credit tail of POST /completeRide in the latest backend
revision (TEST CASE 11): if points > 0, $inc totalPoints and append a
history entry with expiresAt = today + 180 days; otherwise no credit and no
entry. -/
def completeRideCredit (s : LedgerState) (points : Int) : LedgerState :=
  if 0 < points then
    { s with
      totalPoints := s.totalPoints + points,
      history := s.history ++
        [{ delta := points, expiresAt := some (s.nowDay + 180),
           reason := "Drop distance reward" }] }
  else s

/-- POST /redeemPoints (TEST CASE 11b): reject when totalPoints < points,
otherwise $inc totalPoints by -points and append a negative entry with no
expiry. -/
def redeemPoints (s : LedgerState) (points : Int) : LedgerState :=
  if s.totalPoints < points then s
  else
    { s with
      totalPoints := s.totalPoints - points,
      history := s.history ++
        [{ delta := -points, expiresAt := none, reason := "Redeemed for reward" }] }

/-- The query filter of expireOldPoints: entries with positive delta whose
expiresAt is older than (today - 180 days). Note the source subtracts a
further 180 days from today before comparing. -/
def expiredEntrySelector (nowDay : Int) (e : PointsEntry) : Bool :=
  (match e.expiresAt with
    | some x => decide (x < nowDay - 180)
    | none => false) && decide (0 < e.delta)

/-- The expireOldPoints sweep of the latest backend revision (TEST CASE 11d,
run daily by setInterval): for every matched entry, $inc totalPoints by
-delta and append a compensating negative entry with reason
"Points expired (180 days)". The matched originals are left untouched. -/
def expireOldPoints (s : LedgerState) : LedgerState :=
  let expired := s.history.filter (expiredEntrySelector s.nowDay)
  { s with
    totalPoints := s.totalPoints - (expired.map (fun e => e.delta)).sum,
    history := s.history ++ expired.map (fun e =>
      { delta := -e.delta, expiresAt := none,
        reason := "Points expired (180 days)" }) }

/-- Passage of wall-clock time between request-driven operations and sweep
runs. -/
def advanceTo (s : LedgerState) (t : Int) : LedgerState :=
  { s with nowDay := t }

/-- The sum the specification claims totalPoints always equals: deltas of
the entries whose expiresAt (when present) has not yet passed. Written from
the specification words for comparison with the state the source maintains;
the source schema has no reversal marker, so no entry is ever reversed and
the unreversed side condition is vacuous. -/
def unexpiredDeltaSum (s : LedgerState) : Int :=
  ((s.history.filter (fun e =>
      match e.expiresAt with
      | some x => decide (s.nowDay < x)
      | none => true)).map (fun e => e.delta)).sum

/-- Ledger scenario: a single completion crediting 10 points on day 0
(entry expires on day 180), then the daily sweep running on day 181. -/
def expiryScenarioDay181 : LedgerState :=
  expireOldPoints (advanceTo
    (completeRideCredit { totalPoints := 0, history := [], nowDay := 0 } 10) 181)

/-- Ledger scenario continued: the daily sweep running again on day 361 and
then on day 362. -/
def expiryScenarioDay362 : LedgerState :=
  expireOldPoints (advanceTo (expireOldPoints (advanceTo expiryScenarioDay181 361)) 362)

end ServerV3

namespace UserSide

/-- The C-style (int) cast used by calculatePoints in user_side.ino:
truncation toward zero. -/
def truncToInt (q : ℚ) : ℤ :=
  if 0 ≤ q then ⌊q⌋ else -⌊-q⌋

/-- calculatePoints from user_side.ino (TEST CASE 7): base 10, penalty
(int)(distance / 10), clamped below at 0. -/
def calculatePoints (distanceFromBlock : ℚ) : ℤ :=
  let distancePenalty := distanceFromBlock / 10
  let finalPoints := 10 - truncToInt distancePenalty
  if finalPoints < 0 then 0 else finalPoints

end UserSide

/-- The rickshaw firmware ride phase (enum class RickshawState, identical in
both firmware revisions). -/
inductive RickshawState where
  | idle
  | enRoutePickup
  | onTrip
  | completedPhase
deriving DecidableEq

namespace Rickshaw

/-- The points value the rickshaw firmware computes and posts in
postCompleteRide (identical in both firmware revisions):
max(0.0, 10.0 - dropDistance / 10.0), real division with no flooring. -/
def postCompletePoints (dropDistance : ℚ) : ℚ :=
  max 0 (10 - dropDistance / 10)

/-- The guard in the firmware main loop under which postCompleteRide is
invoked: the unit is ON_TRIP and the measured distance to the drop point is
at most 50 m. -/
def completionTriggered (st : RickshawState) (distanceToDrop : ℚ) : Bool :=
  decide (st = RickshawState.onTrip) && decide (distanceToDrop ≤ 50)

/-- The JSON body the firmware posts to /completeRide: rideId, the fixed
PULLER_ID constant, the measured dropDistance and the locally computed
points. No point status field is sent. -/
structure CompletePayload where
  rideId : List Char
  pullerId : List Char
  dropDistance : ℚ
  points : ℚ
deriving DecidableEq

/-- postCompleteRide payload construction from the rickshaw firmware. -/
def postCompleteBody (rideId : List Char) (dropDistance : ℚ) : CompletePayload :=
  { rideId := rideId, pullerId := "puller-neo-01".toList,
    dropDistance := dropDistance, points := postCompletePoints dropDistance }

end Rickshaw

namespace PullerApp

/-- The points value computed inside completeRide in PullerApp.jsx
(TEST CASE 7 comment): basePoints 10, penalty Math.floor(distance / 10),
clamped below at 0. -/
def completeRidePoints (distanceToDropoff : ℚ) : ℤ :=
  max 0 (10 - ⌊distanceToDropoff / 10⌋)

/-- The pointStatus string chosen inside completeRide in PullerApp.jsx:
REWARDED unless the dropoff distance exceeds 100 m, then PENDING (admin
review required). -/
def completeRidePointStatus (distanceToDropoff : ℚ) : String :=
  if 100 < distanceToDropoff then ("PENDING") else ("REWARDED")

/-- The JSON body the puller web app posts to /completeRide. -/
structure CompletePayload where
  rideId : String
  pullerId : String
  dropDistance : ℚ
  points : ℤ
  pointStatus : String
deriving DecidableEq

/-- completeRide payload construction from PullerApp.jsx. -/
def completeRideBody (rideId pullerId : String) (distanceToDropoff : ℚ) :
    CompletePayload :=
  { rideId := rideId, pullerId := pullerId, dropDistance := distanceToDropoff,
    points := completeRidePoints distanceToDropoff,
    pointStatus := completeRidePointStatus distanceToDropoff }

end PullerApp

namespace ServerV2

/-- The record-keeping head of POST /completeRide in the middle backend
revision: the ride is marked COMPLETED with rewardPoints taken verbatim from
the request body, and metadata.pointStatus is the client-sent pointStatus
defaulted to REWARDED. Returns the updated ride and the stored pointStatus. -/
def completeRideApply (ride : RideDoc) (points : ℚ) (pointStatus : Option String) :
    RideDoc × String :=
  ({ ride with status := RideStatus.completed, rewardPoints := some points },
    pointStatus.getD ("REWARDED"))

end ServerV2

/-- A completed-ride scenario document for the reward claims: a ride the
rickshaw firmware is completing. -/
def firmwareRide : RideDoc :=
  { rideId := "ride-7", blockId := "block-alpha-01",
    pullerId := some ("puller-neo-01"), status := RideStatus.accepted,
    createdAt := 0, rewardPoints := none }

/-- Result of a POST /acceptRide call. rideNotFound models the 404 branch
(unused in the scenarios below, where the ride exists);
conflictAlreadyAccepted carries the pullerId reported in the 409 body. -/
inductive AcceptResult where
  | ok
  | conflictAlreadyAccepted (acceptedBy : Option String)
  | rideNotFound
deriving DecidableEq

/-- One in-flight POST /acceptRide handler (identical conflict logic in the
two later backend revisions). The handler runs in two micro-steps separated
by an await point: (1) Ride.findOne resolves, storing a snapshot of the ride
document; (2) the continuation checks the snapshot and either returns 409
(snapshot ACCEPTED by a different puller) or saves the mutated snapshot and
returns 200. -/
structure AcceptCall where
  caller : String
  snapshot : Option RideDoc
  result : Option AcceptResult
deriving DecidableEq

/-- A fresh acceptRide invocation by the given puller. -/
def newAcceptCall (caller : String) : AcceptCall :=
  { caller := caller, snapshot := none, result := none }

/-- Execute the next micro-step of one acceptRide handler against the
current durable ride document. First step: read (findOne). Second step: the
read-then-write continuation, which checks the stale snapshot, not the
current store. A finished handler is a no-op. -/
def acceptMicroStep (store : RideDoc) (c : AcceptCall) : RideDoc × AcceptCall :=
  match c.snapshot, c.result with
  | none, _ => (store, { c with snapshot := some store })
  | some snap, none =>
    if snap.status = RideStatus.accepted ∧ snap.pullerId ≠ some c.caller then
      (store, { c with result := some (AcceptResult.conflictAlreadyAccepted snap.pullerId) })
    else
      ({ snap with status := RideStatus.accepted, pullerId := some c.caller },
        { c with result := some AcceptResult.ok })
  | some _, some _ => (store, c)

/-- Run a list of concurrent acceptRide handlers under an explicit
interleaving: each schedule element names the handler whose next micro-step
runs. Every schedule corresponds to a realizable ordering of the await
points in the Node event loop. -/
def runAcceptSchedule (store : RideDoc) (calls : List AcceptCall)
    (sched : List Nat) : RideDoc × List AcceptCall :=
  sched.foldl
    (fun st i =>
      match st.2.get? i with
      | some c =>
        let r := acceptMicroStep st.1 c
        (r.1, st.2.set i r.2)
      | none => st)
    (store, calls)

/-- A broadcast ride awaiting acceptance. -/
def acceptRaceRide : RideDoc :=
  { rideId := "ride-1", blockId := "block-alpha-01", pullerId := none,
    status := RideStatus.assigned, createdAt := 0, rewardPoints := none }

/-- Two pullers accept concurrently; both findOne reads resolve before
either continuation runs (schedule: read A, read B, continue A,
continue B). -/
def acceptRaceInterleaved : RideDoc × List AcceptCall :=
  runAcceptSchedule acceptRaceRide
    [newAcceptCall ("puller-A"), newAcceptCall ("puller-B")] [0, 1, 0, 1]

/-- The same two accepts processed one handler at a time. -/
def acceptRaceSequential : RideDoc × List AcceptCall :=
  runAcceptSchedule acceptRaceRide
    [newAcceptCall ("puller-A"), newAcceptCall ("puller-B")] [0, 0, 1, 1]

/-- A repeat accept by the puller that already holds the ride. -/
def acceptRepeatRun : RideDoc × List AcceptCall :=
  runAcceptSchedule
    { acceptRaceRide with status := RideStatus.accepted, pullerId := some ("puller-A") }
    [newAcceptCall ("puller-A")] [0, 0]

/-- A typed notification sent to one puller channel. -/
inductive Notice where
  | assignRide (rideId : String)
  | cancelRide (rideId : String) (reason : String)
  | requestFilled (rideId : String)
deriving DecidableEq

namespace ServerV2

/-- setTimeout delay for the broadcast deadline in the middle backend
revision, in milliseconds. -/
def timeoutDelayMs : Int := 60000

/-- The 60-second timeout callback of the middle backend revision: re-read
the ride; if still ASSIGNED, set it to CANCELLED and send every broadcast
candidate a CANCEL_RIDE notice; in all cases delete the
activeRideAssignments entry. Returns (ride, surviving assignment entry,
notices as recipient-message pairs). -/
def rideTimeoutCallback (ride : RideDoc) (availablePullers : List String) :
    RideDoc × Option (List String) × List (String × Notice) :=
  if ride.status = RideStatus.assigned then
    ({ ride with status := RideStatus.cancelled }, none,
      availablePullers.map (fun p =>
        (p, Notice.cancelRide ride.rideId
          ("Request expired - no puller accepted within 60 seconds"))))
  else
    (ride, none, [])

/-- POST /confirmPickup from the middle backend revision (the only revision
exposing it): 403 Unauthorized when the acting puller differs from the ride
pullerId, otherwise the ride becomes PICKED_UP. The 404 missing-ride branch
is outside this projection. -/
def confirmPickup (ride : RideDoc) (pullerId : String) : Except String RideDoc :=
  if ride.pullerId ≠ some pullerId then Except.error ("Unauthorized")
  else Except.ok { ride with status := RideStatus.pickedUp }

end ServerV2

namespace ServerV3

/-- setTimeout delay for the broadcast deadline in the latest backend
revision, in milliseconds. -/
def timeoutDelayMs : Int := 60000

/-- The 60-second timeout callback of the latest backend revision: if the
activeRideRequests entry survives and the ride is still ASSIGNED, set the
ride to REJECTED and delete the entry and its timeout handle. No
notification is sent to any candidate. Returns (ride, surviving request
entry, notices). -/
def rideTimeoutCallback (ride : RideDoc) (request : Option (List String)) :
    RideDoc × Option (List String) × List (String × Notice) :=
  match request with
  | some ps =>
    if ride.status = RideStatus.assigned then
      ({ ride with status := RideStatus.rejected }, none, [])
    else
      (ride, some ps, [])
  | none => (ride, none, [])

end ServerV3

/-- Error responses of POST /requestRide: 400 when blockId is missing and
409 when the block already has an active request. -/
inductive RequestError where
  | missingBlockId
  | duplicateActiveRequest (existingRideId : String)
deriving DecidableEq

/-- A ride status counted as active by the duplicate-request query of the
latest backend revision ($in PENDING_ASSIGNMENT, ASSIGNED, ACCEPTED —
exactly the non-terminal statuses of that revision). -/
def isActiveStatus : RideStatus → Bool
  | RideStatus.pendingAssignment => true
  | RideStatus.assigned => true
  | RideStatus.accepted => true
  | _ => false

/-- The ride document with the greatest createdAt, mirroring
findOne(...).sort(createdAt descending). -/
def maxByCreatedAt : List RideDoc → Option RideDoc
  | [] => none
  | r :: rs =>
    match maxByCreatedAt rs with
    | none => some r
    | some m => if m.createdAt ≤ r.createdAt then some r else some m

namespace ServerV3

/-- The duplicate query of POST /requestRide in the latest backend revision:
the most recent ride of the block with an active status. -/
def latestActiveRide (rides : List RideDoc) (blockId : String) : Option RideDoc :=
  maxByCreatedAt (rides.filter (fun r =>
    r.blockId == blockId && isActiveStatus r.status))

/-- The de-duplication guard: some existingRideId when the latest active
ride of the block was created after (now - 5 minutes), none otherwise. -/
def recentDuplicate (rides : List RideDoc) (blockId : String) (now : Int) :
    Option String :=
  match latestActiveRide rides blockId with
  | some r => if now - 5 * 60 * 1000 < r.createdAt then some r.rideId else none
  | none => none

/-- POST /requestRide of the latest backend revision: 400 on empty blockId,
409 (rides unchanged) on a recent duplicate active request, otherwise a new
ride is created in PENDING_ASSIGNMENT and its id returned. The subsequent
broadcast (assignRideToPuller) is a separate step outside this handler
projection. -/
def requestRide (rides : List RideDoc) (blockId : String) (now : Int)
    (newRideId : String) :
    Except RequestError (String × RideStatus) × List RideDoc :=
  if blockId = "" then (Except.error RequestError.missingBlockId, rides)
  else
    match recentDuplicate rides blockId now with
    | some rid => (Except.error (RequestError.duplicateActiveRequest rid), rides)
    | none =>
      (Except.ok (newRideId, RideStatus.pendingAssignment),
        rides ++ [{ rideId := newRideId, blockId := blockId, pullerId := none,
                    status := RideStatus.pendingAssignment, createdAt := now,
                    rewardPoints := none }])

end ServerV3

namespace PullerApp

/-- The status transition applied by updateLocationAndDistances in
PullerApp.jsx while heading to pickup: when the freshly computed distance to
the pickup is strictly below 50 m and the ride is ACCEPTED, the local status
becomes PICKING_UP (which is what renders the Confirm Pickup button);
otherwise the status is unchanged. -/
def pickupStatusUpdate (rideStatus : String) (distToPickup : ℚ) : String :=
  if distToPickup < 50 ∧ rideStatus = "ACCEPTED" then ("PICKING_UP") else rideStatus

/-- The render guard of the Confirm Pickup button in PullerApp.jsx. -/
def confirmPickupButtonVisible (rideStatus : String) : Bool :=
  rideStatus == "PICKING_UP"

end PullerApp

/-- A ride a puller is navigating to, used by the pickup-gating witness. -/
def pickupRide : RideDoc :=
  { rideId := "ride-3", blockId := "block-alpha-01",
    pullerId := some ("puller-A"), status := RideStatus.accepted,
    createdAt := 0, rewardPoints := none }

/-- An existing active request used by the de-duplication witness. -/
def dedupExistingRide : RideDoc :=
  { rideId := "ride-0", blockId := "block-alpha-01", pullerId := none,
    status := RideStatus.assigned, createdAt := 100000, rewardPoints := none }

/-- A broadcast ride used by the timeout witness and counterexample. -/
def timeoutRide : RideDoc :=
  { rideId := "ride-9", blockId := "block-alpha-01", pullerId := none,
    status := RideStatus.assigned, createdAt := 0, rewardPoints := none }

/-- First index at which the pattern occurs as a contiguous sublist,
mirroring Arduino String.indexOf (none standing for the -1 result). -/
def indexOfSub (msg pat : List Char) : Option Nat :=
  match msg with
  | [] => if pat.isPrefixOf ([] : List Char) then some 0 else none
  | c :: rest =>
    if pat.isPrefixOf (c :: rest) then some 0
    else (indexOfSub rest pat).map (fun i => i + 1)

/-- msg.indexOf(pat) >= 0, the containment test the firmware applies to
every websocket text frame. -/
def charListHasSub (msg pat : List Char) : Bool :=
  (indexOfSub msg pat).isSome

namespace Rickshaw

/-- The naive rideId extraction of the firmware websocket handler when the
key pattern is present: take from just after the 10-character pattern
(idStart = indexOf + 10) up to the closing double quote. When the pattern is
absent the firmware slices from the garbage index 9; that unreachable branch
is abbreviated to the empty id. -/
def parseRideId (msg : List Char) : List Char :=
  match indexOfSub msg ("\"rideId\":\"".toList) with
  | some i => (msg.drop (i + 10)).takeWhile (fun c => c != '"')
  | none => []

/-- The local ride bookkeeping of the firmware, projected onto the fields
the verified handler logic touches (the parsed coordinate fields are only
displayed or used later by the GPS loop). -/
structure RideContext where
  rideId : List Char
  active : Bool
deriving DecidableEq

/-- An HTTP request issued synchronously by the websocket handler. -/
inductive HttpPost where
  | acceptRide (rideId : List Char)
deriving DecidableEq

/-- The WStype_TEXT branch of webSocketEvent in the first firmware revision:
a frame containing ASSIGN_RIDE parses the rideId, marks the ride active, and
immediately posts acceptRide (acceptPostOk is the HTTP outcome: 200 moves
the phase to ON_TRIP, failure leaves EN_ROUTE_PICKUP and only logs);
otherwise a frame containing CANCEL_RIDE deactivates the ride. -/
def webSocketTextEventV0 (msg : List Char) (ride : RideContext)
    (st : RickshawState) (acceptPostOk : Bool) :
    RideContext × RickshawState × List HttpPost :=
  if charListHasSub msg ("ASSIGN_RIDE".toList) then
    let rid := parseRideId msg
    ({ rideId := rid, active := true },
      if acceptPostOk then RickshawState.onTrip else RickshawState.enRoutePickup,
      [HttpPost.acceptRide rid])
  else if charListHasSub msg ("CANCEL_RIDE".toList) then
    ({ ride with active := false }, RickshawState.idle, [])
  else (ride, st, [])

/-- The WStype_TEXT branch of webSocketEvent in the second firmware
revision: identical to the first except that a frame containing REGISTERED
is consumed first (registration confirmation, no state change). -/
def webSocketTextEventV1 (msg : List Char) (ride : RideContext)
    (st : RickshawState) (acceptPostOk : Bool) :
    RideContext × RickshawState × List HttpPost :=
  if charListHasSub msg ("REGISTERED".toList) then (ride, st, [])
  else if charListHasSub msg ("ASSIGN_RIDE".toList) then
    let rid := parseRideId msg
    ({ rideId := rid, active := true },
      if acceptPostOk then RickshawState.onTrip else RickshawState.enRoutePickup,
      [HttpPost.acceptRide rid])
  else if charListHasSub msg ("CANCEL_RIDE".toList) then
    ({ ride with active := false }, RickshawState.idle, [])
  else (ride, st, [])

/-- The idle local ride state of a freshly booted firmware unit. -/
def idleRideContext : RideContext :=
  { rideId := [], active := false }

end Rickshaw

/-- A text frame containing both the REGISTERED and the ASSIGN_RIDE
substrings. -/
def registeredAssignFrame : List Char := "REGISTERED ASSIGN_RIDE".toList

/-- An ordinary assignment frame carrying a rideId. -/
def assignFrame : List Char := "ASSIGN_RIDE \"rideId\":\"r7\"".toList

/-- C6: every distance helper in the system (rickshaw firmware, puller web
app, user-side firmware, latest backend revision) computes exactly the
Haversine great-circle distance stated in the specification, for every
field and every interpretation of the trigonometric operations. -/
theorem haversine_distance_functions {α : Type} [Field α] (t : TrigOps α)
    (lat1 lon1 lat2 lon2 : α) :
    Rickshaw.computeDistanceMeters t lat1 lon1 lat2 lon2 =
        haversineSpecDistance t lat1 lon1 lat2 lon2 ∧
      PullerApp.calculateDistance t lat1 lon1 lat2 lon2 =
        haversineSpecDistance t lat1 lon1 lat2 lon2 ∧
      UserSide.calculateDistance t lat1 lon1 lat2 lon2 =
        haversineSpecDistance t lat1 lon1 lat2 lon2 ∧
      ServerV3.calculateDistance t lat1 lon1 lat2 lon2 =
        haversineSpecDistance t lat1 lon1 lat2 lon2 := by
  have hlat : (lat2 - lat1) * t.pi / 180 = lat2 * t.pi / 180 - lat1 * t.pi / 180 := by
    ring
  have hlon : (lon2 - lon1) * t.pi / 180 = lon2 * t.pi / 180 - lon1 * t.pi / 180 := by
    ring
  refine ⟨?_, ?_, ?_, ?_⟩ <;>
    simp only [Rickshaw.computeDistanceMeters, PullerApp.calculateDistance,
      UserSide.calculateDistance, ServerV3.calculateDistance,
      haversineSpecDistance] <;>
    rw [hlat, hlon] <;>
    ring

/-- maxByCreatedAt returns none exactly on the empty list. -/
theorem maxByCreatedAt_eq_none {l : List RideDoc} :
    maxByCreatedAt l = none ↔ l = [] := by
  constructor
  · intro h'
    cases l with
    | nil => rfl
    | cons a rs =>
      exfalso
      simp only [maxByCreatedAt] at h'
      cases hmr : maxByCreatedAt rs with
      | none =>
        simp only [hmr] at h'
        exact Option.noConfusion h'
      | some m =>
        simp only [hmr] at h'
        split at h' <;> exact Option.noConfusion h'
  · intro h'
    subst h'
    rfl

/-- maxByCreatedAt returns a member of the list maximal in createdAt. -/
theorem maxByCreatedAt_spec : ∀ (l : List RideDoc) (m : RideDoc),
    maxByCreatedAt l = some m → m ∈ l ∧ ∀ r ∈ l, r.createdAt ≤ m.createdAt := by
  intro l
  induction l with
  | nil => intro m h; simp [maxByCreatedAt] at h
  | cons a rs ih =>
    intro m h
    simp only [maxByCreatedAt] at h
    cases hmr : maxByCreatedAt rs with
    | none =>
      have hnil : rs = [] := maxByCreatedAt_eq_none.mp hmr
      subst hnil
      simp only [maxByCreatedAt] at h
      injection h with h'
      subst h'
      refine ⟨List.mem_cons_self _ _, ?_⟩
      intro r hr
      simp only [List.mem_singleton] at hr
      subst hr
      exact le_refl _
    | some m0 =>
      simp only [hmr] at h
      obtain ⟨hmem0, hmax0⟩ := ih m0 hmr
      by_cases hc : m0.createdAt ≤ a.createdAt
      · rw [if_pos hc] at h
        injection h with h'
        subst h'
        refine ⟨List.mem_cons_self _ _, ?_⟩
        intro r hr
        rcases List.mem_cons.mp hr with h1 | h2
        · subst h1; exact le_refl _
        · exact le_trans (hmax0 r h2) hc
      · rw [if_neg hc] at h
        injection h with h'
        subst h'
        refine ⟨List.mem_cons_of_mem _ hmem0, ?_⟩
        intro r hr
        rcases List.mem_cons.mp hr with h1 | h2
        · subst h1; exact le_of_not_le hc
        · exact hmax0 r h2

/-- The de-duplication guard fires exactly when some ride of the block with
an active status was created within the trailing five minutes. -/
theorem recentDuplicate_isSome_iff (rides : List RideDoc) (b : String) (now : Int) :
    (ServerV3.recentDuplicate rides b now).isSome = true ↔
      ∃ r ∈ rides, r.blockId = b ∧ isActiveStatus r.status = true ∧
        now - 5 * 60 * 1000 < r.createdAt := by
  cases hm : ServerV3.latestActiveRide rides b with
  | none =>
    have hred : ServerV3.recentDuplicate rides b now = none := by
      unfold ServerV3.recentDuplicate
      rw [hm]
    have hnil : rides.filter (fun r =>
        r.blockId == b && isActiveStatus r.status) = [] := by
      apply maxByCreatedAt_eq_none.mp
      unfold ServerV3.latestActiveRide at hm
      exact hm
    rw [hred]
    constructor
    · intro hx
      exact absurd hx (by simp)
    · rintro ⟨r, hr, hb2, ha, _⟩
      have hrf : r ∈ rides.filter (fun r =>
          r.blockId == b && isActiveStatus r.status) :=
        List.mem_filter.mpr ⟨hr, by simp [hb2, ha]⟩
      rw [hnil] at hrf
      exact (List.not_mem_nil r hrf).elim
  | some m =>
    have hred : ServerV3.recentDuplicate rides b now =
        if now - 5 * 60 * 1000 < m.createdAt then some m.rideId else none := by
      unfold ServerV3.recentDuplicate
      rw [hm]
    have hm' : maxByCreatedAt (rides.filter (fun r =>
        r.blockId == b && isActiveStatus r.status)) = some m := by
      unfold ServerV3.latestActiveRide at hm
      exact hm
    obtain ⟨hmem, hmax⟩ := maxByCreatedAt_spec _ m hm'
    obtain ⟨hmr, hmp⟩ := List.mem_filter.mp hmem
    simp only [Bool.and_eq_true, beq_iff_eq] at hmp
    rw [hred]
    by_cases hw : now - 5 * 60 * 1000 < m.createdAt
    · rw [if_pos hw]
      constructor
      · intro _
        exact ⟨m, hmr, hmp.1, hmp.2, hw⟩
      · intro _
        rfl
    · rw [if_neg hw]
      constructor
      · intro hx
        exact absurd hx (by simp)
      · rintro ⟨r, hr, hb2, ha, hww⟩
        have hrf : r ∈ rides.filter (fun r =>
            r.blockId == b && isActiveStatus r.status) :=
          List.mem_filter.mpr ⟨hr, by simp [hb2, ha]⟩
        exact (hw (lt_of_lt_of_le hww (hmax r hrf))).elim

/-- Floor evaluation used by the concrete reward computations. -/
theorem floor_zero_div_ten : ⌊(0 : ℚ) / 10⌋ = 0 := by norm_num

/-- Floor evaluation used by the concrete reward computations. -/
theorem floor_five_div_ten : ⌊(5 : ℚ) / 10⌋ = 0 := by
  rw [Int.floor_eq_iff]
  norm_num

/-- Floor evaluation used by the concrete reward computations. -/
theorem floor_fiftyfive_div_ten : ⌊(55 : ℚ) / 10⌋ = 5 := by
  rw [Int.floor_eq_iff]
  norm_num

/-- The firmware reward at a 5 m drop distance. -/
theorem postCompletePoints_five : Rickshaw.postCompletePoints 5 = 19 / 2 := by
  rw [Rickshaw.postCompletePoints,
    max_eq_right (by norm_num : (0 : ℚ) ≤ 10 - 5 / 10)]
  norm_num

/-- The firmware reward at a 55 m drop distance. -/
theorem postCompletePoints_fiftyfive : Rickshaw.postCompletePoints 55 = 9 / 2 := by
  rw [Rickshaw.postCompletePoints,
    max_eq_right (by norm_num : (0 : ℚ) ≤ 10 - 55 / 10)]
  norm_num

/-- The backend floor-based reward at a 0 m drop distance. -/
theorem calculatePoints_zero : ServerV3.calculatePoints 0 = 10 := by
  rw [ServerV3.calculatePoints, floor_zero_div_ten]
  decide

/-- The backend floor-based reward at a 5 m drop distance. -/
theorem calculatePoints_five : ServerV3.calculatePoints 5 = 10 := by
  rw [ServerV3.calculatePoints, floor_five_div_ten]
  decide

/-- The backend floor-based reward at a 55 m drop distance. -/
theorem calculatePoints_fiftyfive : ServerV3.calculatePoints 55 = 5 := by
  rw [ServerV3.calculatePoints, floor_fiftyfive_div_ten]
  decide

/-- The puller web app reward at a 55 m drop distance. -/
theorem completeRidePoints_fiftyfive : PullerApp.completeRidePoints 55 = 5 := by
  rw [PullerApp.completeRidePoints, floor_fiftyfive_div_ten]
  decide

/-- The backend completeRide outcome at a 0 m drop distance. -/
theorem completeRideOutcome_zero :
    ServerV3.completeRideOutcome 0 = (10, "REWARDED") := by
  rw [ServerV3.completeRideOutcome, if_pos (by norm_num : (0 : ℚ) ≤ 50),
    calculatePoints_zero]

/-- The backend completeRide outcome at a 55 m drop distance. -/
theorem completeRideOutcome_fiftyfive :
    ServerV3.completeRideOutcome 55 = (5, "REWARDED") := by
  rw [ServerV3.completeRideOutcome, if_neg (by norm_num : ¬ (55 : ℚ) ≤ 50),
    if_pos (by norm_num : (55 : ℚ) ≤ 100), calculatePoints_fiftyfive]

/-- C1: the claim of exactly one success among concurrent accepts fails on
the source. The shared POST /acceptRide handler of the two later backend
revisions checks the ride status it read before writing, without atomicity
(read-then-write across an await point). Under the interleaving in which
both findOne reads resolve before either continuation runs, two concurrent
accepts by distinct pullers both return success and the ride ends assigned
to the last writer. The same two calls processed one handler at a time give
exactly one success and one ConflictError naming the holder, and a repeat
accept by the holder succeeds idempotently, confirming that
first-accept-wins is the documented intent the race breaks. -/
theorem acceptRide_read_then_write_race :
    (acceptRaceInterleaved.2.map (fun c => c.result) =
        [some AcceptResult.ok, some AcceptResult.ok] ∧
      acceptRaceInterleaved.1.status = RideStatus.accepted ∧
      acceptRaceInterleaved.1.pullerId = some ("puller-B")) ∧
    (acceptRaceSequential.2.map (fun c => c.result) =
        [some AcceptResult.ok,
          some (AcceptResult.conflictAlreadyAccepted (some ("puller-A")))] ∧
      acceptRaceSequential.1.pullerId = some ("puller-A")) ∧
    (acceptRepeatRun.2.map (fun c => c.result) = [some AcceptResult.ok] ∧
      acceptRepeatRun.1 =
        { acceptRaceRide with status := RideStatus.accepted,
                              pullerId := some ("puller-A") }) := by
  decide

/-- C5: the ledger invariant fails on the source. After one completion
crediting 10 points on day 0 (entry expiring on day 180), the expiration
sweep run on day 181 leaves totalPoints at 10 although the sum of unexpired
deltas is 0 (the sweep only matches entries whose expiresAt lies more than
180 further days in the past), and because swept originals are never marked,
the sweeps of days 361 and 362 deduct the same entry twice, driving
totalPoints to -10. -/
theorem ledger_expiry_sweep_mismatch :
    ServerV3.expiryScenarioDay181.totalPoints = 10 ∧
    ServerV3.unexpiredDeltaSum ServerV3.expiryScenarioDay181 = 0 ∧
    ServerV3.expiryScenarioDay362.totalPoints = -10 := by
  decide

/-- Counterexample to C4 as stated: on timer expiry for a still-ASSIGNED
ride, the latest backend revision sets REJECTED and notifies nobody, while
the middle revision sets CANCELLED; the two terminal states disagree and
neither is a distinguished EXPIRED state, and the broadcast candidates of
the latest revision receive no cancellation notice. -/
theorem ride_timeout_no_expired_state :
    (ServerV3.rideTimeoutCallback timeoutRide (some ["puller-A", "puller-B"])).1.status =
      RideStatus.rejected ∧
    (ServerV3.rideTimeoutCallback timeoutRide (some ["puller-A", "puller-B"])).2.2 = [] ∧
    (ServerV2.rideTimeoutCallback timeoutRide ["puller-A", "puller-B"]).1.status =
      RideStatus.cancelled ∧
    RideStatus.cancelled ≠ RideStatus.rejected := by
  decide

/-- C4 amended: after the 60-second deadline (both revisions schedule the
callback with a 60000 ms delay) a ride still ASSIGNED is terminated and its
pending assignment discarded; the middle backend revision sets it to
CANCELLED and sends every broadcast candidate a CANCEL_RIDE notice, while
the latest revision sets it to REJECTED and notifies no one. -/
theorem ride_timeout_terminates_assignment (ride : RideDoc) (ps : List String)
    (h : ride.status = RideStatus.assigned) :
    ServerV2.rideTimeoutCallback ride ps =
      ({ ride with status := RideStatus.cancelled }, none,
        ps.map (fun p => (p, Notice.cancelRide ride.rideId
          ("Request expired - no puller accepted within 60 seconds")))) ∧
    ServerV3.rideTimeoutCallback ride (some ps) =
      ({ ride with status := RideStatus.rejected }, none, []) ∧
    ServerV2.timeoutDelayMs = 60000 ∧ ServerV3.timeoutDelayMs = 60000 := by
  refine ⟨?_, ?_, rfl, rfl⟩ <;>
    simp [ServerV2.rideTimeoutCallback, ServerV3.rideTimeoutCallback, h]

/-- Witness for the amended C4 theorem at a concrete assigned ride with one
broadcast candidate. -/
theorem ride_timeout_terminates_assignment_witness :
    ServerV2.rideTimeoutCallback timeoutRide ["puller-A"] =
      ({ timeoutRide with status := RideStatus.cancelled }, none,
        [("puller-A", Notice.cancelRide ("ride-9")
          ("Request expired - no puller accepted within 60 seconds"))]) ∧
    ServerV3.rideTimeoutCallback timeoutRide (some ["puller-A"]) =
      ({ timeoutRide with status := RideStatus.rejected }, none, []) := by
  have h := ride_timeout_terminates_assignment timeoutRide ["puller-A"] rfl
  exact ⟨h.1, h.2.1⟩

/-- Counterexample to C7 as stated: at a distance of exactly 50 m the puller
app does not transition an ACCEPTED ride to PICKING_UP (the gate is strict),
so the Confirm Pickup button is not rendered although the claimed at-most-50
condition holds. -/
theorem pickup_gate_closed_at_50m :
    PullerApp.pickupStatusUpdate ("ACCEPTED") 50 = "ACCEPTED" ∧
    PullerApp.confirmPickupButtonVisible
      (PullerApp.pickupStatusUpdate ("ACCEPTED") 50) = false := by
  decide

/-- C7 amended: the pickup confirmation becomes available exactly when the
distance to the pickup is strictly below 50 m (the ACCEPTED ride then
becomes PICKING_UP, which renders the button), and POST /confirmPickup is
accepted exactly from the puller recorded on the ride, any other caller
receiving 403 Unauthorized. -/
theorem pickup_confirmation_gating (d : ℚ) (ride : RideDoc) (w : String) :
    (PullerApp.pickupStatusUpdate ("ACCEPTED") d = "PICKING_UP" ↔ d < 50) ∧
    (ride.pullerId = some w →
      ServerV2.confirmPickup ride w =
        Except.ok { ride with status := RideStatus.pickedUp }) ∧
    (ride.pullerId ≠ some w →
      ServerV2.confirmPickup ride w = Except.error ("Unauthorized")) := by
  refine ⟨?_, ?_, ?_⟩
  · by_cases hd : d < 50
    · simp [PullerApp.pickupStatusUpdate, hd]
    · simp [PullerApp.pickupStatusUpdate, hd]
  · intro h
    simp [ServerV2.confirmPickup, h]
  · intro h
    simp [ServerV2.confirmPickup, h]

/-- Witness for the amended C7 theorem: the assigned puller confirms, a
different puller is rejected as Unauthorized. -/
theorem pickup_confirmation_gating_witness :
    ServerV2.confirmPickup pickupRide ("puller-A") =
      Except.ok { pickupRide with status := RideStatus.pickedUp } ∧
    ServerV2.confirmPickup pickupRide ("puller-B") =
      Except.error ("Unauthorized") := by
  exact ⟨(pickup_confirmation_gating 0 pickupRide ("puller-A")).2.1 rfl,
    (pickup_confirmation_gating 0 pickupRide ("puller-B")).2.2 (by decide)⟩

/-- Counterexample to C2 as stated: a rickshaw-firmware completion at drop
distance 5 m (the firmware completes only within 50 m) submits the unfloored
value max(0, 10 - 5/10) = 9.5, which the middle backend revision records
verbatim as the ride reward; the claimed formula gives
max(0, 10 - floor(5/10)) = 10. -/
theorem completed_ride_reward_not_floored :
    Rickshaw.completionTriggered RickshawState.onTrip 5 = true ∧
    (ServerV2.completeRideApply firmwareRide
        ((Rickshaw.postCompleteBody ("ride-7".toList) 5).points) none).1.rewardPoints =
      some (19 / 2) ∧
    ServerV3.calculatePoints 5 = 10 ∧
    ((19 : ℚ) / 2) ≠ ((ServerV3.calculatePoints 5 : ℤ) : ℚ) := by
  refine ⟨by decide, ?_, calculatePoints_five, ?_⟩
  · show some (Rickshaw.postCompletePoints 5) = some (19 / 2)
    rw [postCompletePoints_five]
  · rw [calculatePoints_five]
    norm_num

/-- C2 amended: wherever the floor-based calculator is used — the reward
branch of POST /completeRide in the latest backend revision jointly with its
calculatePoints, and the puller web app completeRide body — a drop distance
d with 0 <= d <= 100 yields points = max(0, 10 - floor(d / 10)) and the
REWARDED status, with d = 0 giving 10 points and d = 55 giving 5; the
rickshaw firmware instead submits the unfloored max(0, 10 - d / 10). -/
theorem completeRide_reward_tiers (d : ℚ) (h0 : 0 ≤ d) (h100 : d ≤ 100) :
    ServerV3.completeRideOutcome d = (max 0 (10 - ⌊d / 10⌋), "REWARDED") ∧
    PullerApp.completeRidePoints d = max 0 (10 - ⌊d / 10⌋) ∧
    PullerApp.completeRidePointStatus d = "REWARDED" ∧
    (ServerV3.completeRideOutcome 0).1 = 10 ∧
    (ServerV3.completeRideOutcome 55).1 = 5 ∧
    (∀ x : ℚ, Rickshaw.postCompletePoints x = max 0 (10 - x / 10)) := by
  refine ⟨?_, rfl, ?_, ?_, ?_, fun x => rfl⟩
  · by_cases h50 : d ≤ 50
    · simp [ServerV3.completeRideOutcome, ServerV3.calculatePoints, h50]
    · simp [ServerV3.completeRideOutcome, ServerV3.calculatePoints, h50, h100]
  · simp [PullerApp.completeRidePointStatus, not_lt.mpr h100]
  · rw [completeRideOutcome_zero]
  · rw [completeRideOutcome_fiftyfive]

/-- Witness for the amended C2 theorem at drop distance 55 m. -/
theorem completeRide_reward_tiers_witness :
    ServerV3.completeRideOutcome 55 = (5, "REWARDED") ∧
    PullerApp.completeRidePointStatus 55 = "REWARDED" := by
  have h := completeRide_reward_tiers 55 (by norm_num) (by norm_num)
  refine ⟨?_, h.2.2.1⟩
  rw [h.1, floor_fiftyfive_div_ten]
  decide

/-- C3: for every drop distance above 100 m the computed points are 0 and
the ride is recorded PENDING_ADMIN_REVIEW, and no credit reaches the ledger:
the latest backend revision returns (0, PENDING_ADMIN_REVIEW) and its credit
step with 0 points changes nothing, and the user-side firmware, rickshaw
firmware and puller web app calculators all yield 0 as well (the web app
marking its submission PENDING for admin review). -/
theorem completeRide_over_100m_pending (d : ℚ) (h : 100 < d) :
    ServerV3.completeRideOutcome d = (0, "PENDING_ADMIN_REVIEW") ∧
    ServerV3.calculatePoints d = 0 ∧
    UserSide.calculatePoints d = 0 ∧
    Rickshaw.postCompletePoints d = 0 ∧
    PullerApp.completeRidePoints d = 0 ∧
    PullerApp.completeRidePointStatus d = "PENDING" ∧
    (∀ s : ServerV3.LedgerState, ServerV3.completeRideCredit s 0 = s) := by
  have h10 : (10 : ℚ) ≤ d / 10 := by linarith
  have hf : (10 : ℤ) ≤ ⌊d / 10⌋ := Int.le_floor.mpr (by exact_mod_cast h10)
  have hle : 10 - ⌊d / 10⌋ ≤ (0 : ℤ) := by omega
  have hmax : max 0 (10 - ⌊d / 10⌋) = (0 : ℤ) := max_eq_left hle
  have h50 : ¬ d ≤ 50 := by linarith
  have h100 : ¬ d ≤ 100 := by linarith
  refine ⟨?_, hmax, ?_, ?_, hmax, ?_, ?_⟩
  · simp [ServerV3.completeRideOutcome, h50, h100]
  · have h0q : (0 : ℚ) ≤ d / 10 := by linarith
    simp only [UserSide.calculatePoints, UserSide.truncToInt, if_pos h0q]
    by_cases hneg : (10 - ⌊d / 10⌋ : ℤ) < 0
    · rw [if_pos hneg]
    · rw [if_neg hneg]; omega
  · have : (10 : ℚ) - d / 10 ≤ 0 := by linarith
    exact max_eq_left this
  · simp [PullerApp.completeRidePointStatus, h]
  · intro s
    simp [ServerV3.completeRideCredit]

/-- Witness for the C3 theorem at drop distance 105 m. -/
theorem completeRide_over_100m_pending_witness :
    ServerV3.completeRideOutcome 105 = (0, "PENDING_ADMIN_REVIEW") ∧
    UserSide.calculatePoints 105 = 0 := by
  have h := completeRide_over_100m_pending 105 (by norm_num)
  exact ⟨h.1, h.2.2.1⟩

/-- C8: POST /requestRide of the latest backend revision rejects with the
409 duplicate-active-request error and leaves the ride collection unchanged
exactly when some ride of the same block with a non-terminal status
(PENDING_ASSIGNMENT, ASSIGNED or ACCEPTED) was created within the trailing
five minutes; otherwise it appends a new ride in PENDING_ASSIGNMENT and
returns its id. -/
theorem requestRide_dedup_window (rides : List RideDoc) (b : String) (now : Int)
    (newId : String) (hb : b ≠ "") :
    ((∃ r ∈ rides, r.blockId = b ∧ isActiveStatus r.status = true ∧
          now - 5 * 60 * 1000 < r.createdAt) →
        (ServerV3.requestRide rides b now newId).2 = rides ∧
          ∃ rid, (ServerV3.requestRide rides b now newId).1 =
            Except.error (RequestError.duplicateActiveRequest rid)) ∧
    ((¬ ∃ r ∈ rides, r.blockId = b ∧ isActiveStatus r.status = true ∧
          now - 5 * 60 * 1000 < r.createdAt) →
        ServerV3.requestRide rides b now newId =
          (Except.ok (newId, RideStatus.pendingAssignment),
            rides ++ [{ rideId := newId, blockId := b, pullerId := none,
                        status := RideStatus.pendingAssignment, createdAt := now,
                        rewardPoints := none }])) := by
  constructor
  · intro hex
    have hs : (ServerV3.recentDuplicate rides b now).isSome = true :=
      (recentDuplicate_isSome_iff rides b now).mpr hex
    obtain ⟨rid, hrid⟩ := Option.isSome_iff_exists.mp hs
    unfold ServerV3.requestRide
    rw [if_neg hb, hrid]
    exact ⟨rfl, rid, rfl⟩
  · intro hnex
    have hs : ServerV3.recentDuplicate rides b now = none := by
      cases ho : ServerV3.recentDuplicate rides b now with
      | none => rfl
      | some rid =>
        exact absurd ((recentDuplicate_isSome_iff rides b now).mp (by simp [ho])) hnex
    unfold ServerV3.requestRide
    rw [if_neg hb, hs]

/-- Witness for the C8 theorem: a duplicate within the window yields the
conflict with the collection unchanged, and a request on an empty collection
creates the PENDING_ASSIGNMENT ride. -/
theorem requestRide_dedup_window_witness :
    ((ServerV3.requestRide [dedupExistingRide] ("block-alpha-01") 200000
          ("ride-1")).2 = [dedupExistingRide] ∧
      ∃ rid, (ServerV3.requestRide [dedupExistingRide] ("block-alpha-01") 200000
          ("ride-1")).1 = Except.error (RequestError.duplicateActiveRequest rid)) ∧
    ServerV3.requestRide [] ("block-alpha-01") 200000 ("ride-1") =
      (Except.ok (("ride-1"), RideStatus.pendingAssignment),
        [{ rideId := "ride-1", blockId := "block-alpha-01", pullerId := none,
           status := RideStatus.pendingAssignment, createdAt := 200000,
           rewardPoints := none }]) := by
  constructor
  · exact (requestRide_dedup_window [dedupExistingRide] ("block-alpha-01") 200000
      ("ride-1") (by decide)).1 (by decide)
  · exact (requestRide_dedup_window [] ("block-alpha-01") 200000
      ("ride-1") (by decide)).2 (by decide)

/-- C9: both clients compute the reward themselves and place it in the
completeRide request body: the rickshaw firmware submits the unfloored
max(0, 10 - d / 10) with no status field, and the puller web app submits
max(0, 10 - floor(d / 10)) together with its own pointStatus choice; at
d = 55 the two submissions differ (9.5 against 5), showing the firmware
applies no flooring. -/
theorem client_reward_in_request_body (d : ℚ) (rid : List Char)
    (rid2 pid : String) :
    (Rickshaw.postCompleteBody rid d).points = max 0 (10 - d / 10) ∧
    (PullerApp.completeRideBody rid2 pid d).points = max 0 (10 - ⌊d / 10⌋) ∧
    (PullerApp.completeRideBody rid2 pid d).pointStatus =
      (if 100 < d then ("PENDING") else ("REWARDED")) ∧
    Rickshaw.postCompletePoints 55 = 9 / 2 ∧
    PullerApp.completeRidePoints 55 = 5 := by
  exact ⟨rfl, rfl, rfl, postCompletePoints_fiftyfive, completeRidePoints_fiftyfive⟩

/-- Counterexample to C10 as stated: a text frame containing both REGISTERED
and ASSIGN_RIDE is consumed by the REGISTERED branch of the second firmware
revision, so no ride is activated and no acceptRide is posted although the
frame contains ASSIGN_RIDE. -/
theorem assign_frame_with_registered_ignored :
    charListHasSub registeredAssignFrame ("ASSIGN_RIDE".toList) = true ∧
    Rickshaw.webSocketTextEventV1 registeredAssignFrame Rickshaw.idleRideContext
        RickshawState.idle false =
      (Rickshaw.idleRideContext, RickshawState.idle, []) := by
  decide

/-- C10 amended: on any text frame containing ASSIGN_RIDE the first firmware
revision activates the local ride and immediately posts acceptRide for the
parsed rideId without driver input, keeping the ride active even when the
POST fails; the second revision behaves the same provided the frame does not
also contain REGISTERED, which it checks first. -/
theorem assign_frame_auto_accept (msg : List Char) (ride : Rickshaw.RideContext)
    (st : RickshawState) (ok : Bool)
    (hassign : charListHasSub msg ("ASSIGN_RIDE".toList) = true) :
    ((Rickshaw.webSocketTextEventV0 msg ride st ok).1.active = true ∧
      (Rickshaw.webSocketTextEventV0 msg ride st ok).2.2 =
        [Rickshaw.HttpPost.acceptRide (Rickshaw.parseRideId msg)] ∧
      (Rickshaw.webSocketTextEventV0 msg ride st false).1.active = true) ∧
    (charListHasSub msg ("REGISTERED".toList) = false →
      (Rickshaw.webSocketTextEventV1 msg ride st ok).1.active = true ∧
        (Rickshaw.webSocketTextEventV1 msg ride st ok).2.2 =
          [Rickshaw.HttpPost.acceptRide (Rickshaw.parseRideId msg)] ∧
        (Rickshaw.webSocketTextEventV1 msg ride st false).1.active = true) := by
  have h0 : ∀ b : Bool, Rickshaw.webSocketTextEventV0 msg ride st b =
      ({ rideId := Rickshaw.parseRideId msg, active := true },
        if b then RickshawState.onTrip else RickshawState.enRoutePickup,
        [Rickshaw.HttpPost.acceptRide (Rickshaw.parseRideId msg)]) := by
    intro b
    simp only [Rickshaw.webSocketTextEventV0]
    rw [if_pos hassign]
  refine ⟨⟨?_, ?_, ?_⟩, ?_⟩
  · rw [h0 ok]
  · rw [h0 ok]
  · rw [h0 false]
  · intro hreg
    have h1 : ∀ b : Bool, Rickshaw.webSocketTextEventV1 msg ride st b =
        ({ rideId := Rickshaw.parseRideId msg, active := true },
          if b then RickshawState.onTrip else RickshawState.enRoutePickup,
          [Rickshaw.HttpPost.acceptRide (Rickshaw.parseRideId msg)]) := by
      intro b
      simp only [Rickshaw.webSocketTextEventV1]
      rw [if_neg (by rw [hreg]; exact Bool.false_ne_true), if_pos hassign]
    refine ⟨?_, ?_, ?_⟩
    · rw [h1 ok]
    · rw [h1 ok]
    · rw [h1 false]

/-- Witness for the amended C10 theorem: an ordinary assignment frame with a
failing acceptRide POST still leaves the local ride active. -/
theorem assign_frame_auto_accept_witness :
    (Rickshaw.webSocketTextEventV1 assignFrame Rickshaw.idleRideContext
        RickshawState.idle false).1.active = true := by
  exact ((assign_frame_auto_accept assignFrame Rickshaw.idleRideContext
    RickshawState.idle false (by decide)).2 (by decide)).1

end AERAS
